import Mathlib

/-
Verification of the mirror dispatch and configuration engine of the
telegram_mirror repository, as a shallow embedding in Lean 4.

The embedding models:
  - the four persisted entities (src/database/models.py) as structures,
    with the database as explicit lists of rows;
  - the repository operations (src/database/repositories.py) as pure
    state-passing functions on that database value; a SQL UPDATE becomes
    a List.map over the affected table, a SELECT ... WHERE id = x becomes
    List.find?;
  - the mirror handlers (src/services/mirror/handlers.py), the mirror
    service (src/services/mirror/service.py), the media extractor
    (src/services/mirror/processors.py), the renderer boundary
    (src/services/renderer/service.py) and the telegram send layer
    (src/services/telegram/handlers.py).

External collaborators (the html2image backend, the filesystem, the
Telegram network primitives) are modelled as oracle functions supplied in
environment records; a collaborator call that can raise in Python is an
oracle returning Except, and the surrounding try/except blocks of the
source are modelled explicitly.
-/

namespace TelegramMirror

/-- A Telegram user row (class User in src/database/models.py). -/
structure User where
  id : Int
  username : Option String
  first_name : Option String
  last_name : Option String
  is_admin : Bool
  is_allowed : Bool
  is_active : Bool
deriving Repr, DecidableEq

/-- A Telegram chat row (class Chat in src/database/models.py). -/
structure Chat where
  id : Int
  title : Option String
  username : Option String
  type : String
  description : Option String
  is_source : Bool
  is_target : Bool
  is_active : Bool
deriving Repr, DecidableEq

/-- A message row (class Message in src/database/models.py); id is the
surrogate primary key, telegram_id the protocol message id. -/
structure Message where
  id : Nat
  telegram_id : Int
  chat_id : Int
  user_id : Option Int
  text : Option String
  media_type : Option String
  media_file_id : Option String
  media_file_unique_id : Option String
  reply_to_message_id : Option Int
  message_thread_id : Option Int
  is_forwarded : Bool
  forward_from_chat_id : Option Int
  forward_from_user_id : Option Int
  is_mirrored : Bool
  mirror_count : Nat
  rendered_image_path : Option String
deriving Repr, DecidableEq

/-- A mirror configuration row (class Mirror in src/database/models.py). -/
structure Mirror where
  id : Nat
  source_chat_id : Int
  target_chat_id : Int
  target_topic_id : Option Int
  is_active : Bool
  render_as_image : Bool
  include_media : Bool
  include_replies : Bool
deriving Repr, DecidableEq

/-- The database state: one list of rows per table, plus the autoincrement
counter for the mirrors table (the only table whose surrogate key the
modelled operations allocate). -/
structure Db where
  users : List User
  chats : List Chat
  messages : List Message
  mirrors : List Mirror
  next_mirror_id : Nat
deriving Repr, DecidableEq

/-- The mirror-related configuration lists and the system-wide render
switch (class MirrorSettings in src/config/settings.py). -/
structure MirrorSettings where
  source_chat_ids : List Int
  target_chat_ids : List Int
  admin_user_ids : List Int
  allowed_user_ids : List Int
  render_images : Bool
deriving Repr, DecidableEq

/-- UserRepository.get_by_id: SELECT the user whose primary key matches. -/
def UserRepo.get_by_id (db : Db) (user_id : Int) : Option User :=
  db.users.find? (fun u => u.id == user_id)

/-- UserRepository.create: insert a new user row and return it. -/
def UserRepo.create (db : Db) (user_id : Int)
    (username first_name last_name : Option String)
    (is_admin is_allowed : Bool) : User × Db :=
  let user : User :=
    { id := user_id, username := username, first_name := first_name,
      last_name := last_name, is_admin := is_admin, is_allowed := is_allowed,
      is_active := true }
  (user, { db with users := db.users ++ [user] })

/-- UserRepository.update_permissions: build the update dict from the
non-None arguments; if it is empty just re-read, otherwise UPDATE the
matching row. -/
def UserRepo.update_permissions (db : Db) (user_id : Int)
    (is_admin is_allowed : Option Bool) : Option User × Db :=
  if is_admin.isNone && is_allowed.isNone then
    (UserRepo.get_by_id db user_id, db)
  else
    let db2 : Db :=
      { db with users := db.users.map (fun u =>
          if u.id == user_id then
            { u with is_admin := is_admin.getD u.is_admin,
                     is_allowed := is_allowed.getD u.is_allowed }
          else u) }
    (UserRepo.get_by_id db2 user_id, db2)

/-- ChatRepository.get_by_id. -/
def ChatRepo.get_by_id (db : Db) (chat_id : Int) : Option Chat :=
  db.chats.find? (fun c => c.id == chat_id)

/-- ChatRepository.create: insert a new chat row and return it. -/
def ChatRepo.create (db : Db) (chat_id : Int)
    (title username : Option String) (chat_type : String)
    (description : Option String) (is_source is_target : Bool) : Chat × Db :=
  let chat : Chat :=
    { id := chat_id, title := title, username := username, type := chat_type,
      description := description, is_source := is_source,
      is_target := is_target, is_active := true }
  (chat, { db with chats := db.chats ++ [chat] })

/-- ChatRepository.update_info: only the arguments that are not None enter
the update dict; an empty dict means no UPDATE is issued at all. -/
def ChatRepo.update_info (db : Db) (chat_id : Int)
    (title username description : Option String) : Option Chat × Db :=
  if title.isNone && username.isNone && description.isNone then
    (ChatRepo.get_by_id db chat_id, db)
  else
    let db2 : Db :=
      { db with chats := db.chats.map (fun c =>
          if c.id == chat_id then
            { c with title := if title.isSome then title else c.title,
                     username := if username.isSome then username else c.username,
                     description := if description.isSome then description else c.description }
          else c) }
    (ChatRepo.get_by_id db2 chat_id, db2)

/-- MessageRepository.get_by_id (lookup by surrogate key). -/
def MessageRepo.get_by_id (db : Db) (message_id : Nat) : Option Message :=
  db.messages.find? (fun m => m.id == message_id)

/-- MessageRepository.mark_as_mirrored: UPDATE the row, setting
is_mirrored to true, incrementing mirror_count, and writing
rendered_image_path from the argument (also when the argument is None). -/
def MessageRepo.mark_as_mirrored (db : Db) (message_id : Nat)
    (rendered_image_path : Option String) : Option Message × Db :=
  let db2 : Db :=
    { db with messages := db.messages.map (fun m =>
        if m.id == message_id then
          { m with is_mirrored := true,
                   mirror_count := m.mirror_count + 1,
                   rendered_image_path := rendered_image_path }
        else m) }
  (MessageRepo.get_by_id db2 message_id, db2)

/-- MirrorRepository.create: insert a new mirror row, is_active defaulting
to true, surrogate key from the autoincrement counter. -/
def MirrorRepo.create (db : Db) (source_chat_id target_chat_id : Int)
    (target_topic_id : Option Int)
    (render_as_image include_media include_replies : Bool) : Mirror × Db :=
  let mirror : Mirror :=
    { id := db.next_mirror_id, source_chat_id := source_chat_id,
      target_chat_id := target_chat_id, target_topic_id := target_topic_id,
      is_active := true, render_as_image := render_as_image,
      include_media := include_media, include_replies := include_replies }
  (mirror, { db with mirrors := db.mirrors ++ [mirror],
                     next_mirror_id := db.next_mirror_id + 1 })

/-- MirrorRepository.get_by_source_chat: the active mirrors whose source
chat matches, in table order. -/
def MirrorRepo.get_by_source_chat (db : Db) (source_chat_id : Int) : List Mirror :=
  db.mirrors.filter (fun m => m.source_chat_id == source_chat_id && m.is_active)

/-- The sender fields read by MessageProcessor.extract_user_info. -/
structure UserInfo where
  user_id : Int
  username : Option String
  first_name : Option String
  last_name : Option String
deriving Repr, DecidableEq

/-- The chat fields read by MessageProcessor.extract_chat_info. -/
structure ChatInfo where
  chat_id : Int
  title : Option String
  username : Option String
  chat_type : String
  description : Option String
deriving Repr, DecidableEq

/-- One media payload of the protocol event: the pair of uninterpreted
file handles carried by each pyrogram media attribute. -/
structure MediaObj where
  file_id : String
  file_unique_id : String
deriving Repr, DecidableEq

/-- The projection of a pyrogram Message event onto the optional media
attributes; the event may carry any of the protocol media kinds,
including the two (animation, video_note) the processor does not read. -/
structure PyrogramMessage where
  photo : Option MediaObj
  video : Option MediaObj
  document : Option MediaObj
  audio : Option MediaObj
  voice : Option MediaObj
  sticker : Option MediaObj
  animation : Option MediaObj
  video_note : Option MediaObj
deriving Repr, DecidableEq

/-- The result record of MessageProcessor.extract_media_info. -/
structure MediaInfo where
  media_type : Option String
  media_file_id : Option String
  media_file_unique_id : Option String
deriving Repr, DecidableEq

/-- MessageProcessor.extract_media_info (src/services/mirror/processors.py
lines 43-78): the if/elif chain over the six media attributes the
processor inspects, in source order. -/
def extract_media_info (m : PyrogramMessage) : MediaInfo :=
  match m.photo with
  | some p => { media_type := some "photo", media_file_id := some p.file_id,
                media_file_unique_id := some p.file_unique_id }
  | none =>
  match m.video with
  | some p => { media_type := some "video", media_file_id := some p.file_id,
                media_file_unique_id := some p.file_unique_id }
  | none =>
  match m.document with
  | some p => { media_type := some "document", media_file_id := some p.file_id,
                media_file_unique_id := some p.file_unique_id }
  | none =>
  match m.audio with
  | some p => { media_type := some "audio", media_file_id := some p.file_id,
                media_file_unique_id := some p.file_unique_id }
  | none =>
  match m.voice with
  | some p => { media_type := some "voice", media_file_id := some p.file_id,
                media_file_unique_id := some p.file_unique_id }
  | none =>
  match m.sticker with
  | some p => { media_type := some "sticker", media_file_id := some p.file_id,
                media_file_unique_id := some p.file_unique_id }
  | none => { media_type := none, media_file_id := none,
              media_file_unique_id := none }

/-- The association of media-type tag to optional payload, in the order
the extractor inspects the event's attributes. -/
def media_fields (e : PyrogramMessage) : List (String × Option MediaObj) :=
  [("photo", e.photo), ("video", e.video), ("document", e.document),
   ("audio", e.audio), ("voice", e.voice), ("sticker", e.sticker)]

/-- First-match characterization of the extractor: the first inspected
attribute that is present, paired with its tag. -/
def first_media (e : PyrogramMessage) : Option (String × MediaObj) :=
  (media_fields e).findSome? (fun nv => nv.2.map (fun x => (nv.1, x)))

/-- The rendering collaborators of MessageRenderer: the HTML generator and
the html2image screenshot backend (either may raise), the CSS generator
(pure) and the filesystem existence check the renderer performs on its
output path. -/
structure RenderEnv where
  generate_message_html : Message → Bool → Bool → Except String String
  complete_styles : String
  screenshot : String → String → String → Except String Unit
  output_exists : String → Bool

/-- The output filename MessageRenderer builds for a message:
message_(chat id)_(telegram id)_(surrogate id).png. -/
def render_filename (message : Message) : String :=
  "message_" ++ toString message.chat_id ++ "_" ++
    toString message.telegram_id ++ "_" ++ toString message.id ++ ".png"

/-- MessageRenderer.render_message_as_image (src/services/renderer/
service.py lines 38-83): the whole body runs under try/except, so a raise
from the HTML generator or the screenshot backend yields None (the except
branch), a missing output file yields None, and only an output file that
passes the existence check yields its path under the rendered_messages
output directory. -/
def render_message_as_image (env : RenderEnv) (message : Message)
    (include_media include_replies : Bool) : Option String :=
  match env.generate_message_html message include_media include_replies with
  | Except.error _ => none
  | Except.ok html_content =>
    match env.screenshot html_content (render_filename message)
        env.complete_styles with
    | Except.error _ => none
    | Except.ok _ =>
      if env.output_exists ("rendered_messages/" ++ render_filename message) then
        some ("rendered_messages/" ++ render_filename message)
      else none

/-- MirrorHandler.ensure_user_exists (src/services/mirror/handlers.py
lines 39-65): lazy creation with classification from the configured id
lists; an existing user is returned untouched. -/
def ensure_user_exists (settings : MirrorSettings) (db : Db) :
    Option UserInfo → Option User × Db
  | none => (none, db)
  | some info =>
    match UserRepo.get_by_id db info.user_id with
    | some user => (some user, db)
    | none =>
      let is_admin := settings.admin_user_ids.contains info.user_id
      let is_allowed := is_admin || settings.allowed_user_ids.contains info.user_id
      let created := UserRepo.create db info.user_id info.username
        info.first_name info.last_name is_admin is_allowed
      (some created.1, created.2)

/-- MirrorHandler.ensure_chat_exists (src/services/mirror/handlers.py
lines 67-96): lazy creation with classification from the configured id
lists; an existing chat gets its profile fields refreshed via
update_info. -/
def ensure_chat_exists (settings : MirrorSettings) (db : Db)
    (chat_info : ChatInfo) : Chat × Db :=
  match ChatRepo.get_by_id db chat_info.chat_id with
  | some chat =>
    let updated := ChatRepo.update_info db chat_info.chat_id
      chat_info.title chat_info.username chat_info.description
    (chat, updated.2)
  | none =>
    let is_source := settings.source_chat_ids.contains chat_info.chat_id
    let is_target := settings.target_chat_ids.contains chat_info.chat_id
    let created := ChatRepo.create db chat_info.chat_id chat_info.title
      chat_info.username chat_info.chat_type chat_info.description
      is_source is_target
    (created.1, created.2)

/-- The rendered-image path computed at the top of
MirrorHandler.mirror_message_to_target: render only when both the mirror
flag and the system-wide switch are on. -/
def render_result (env : RenderEnv) (render_images : Bool) (message : Message)
    (mirror : Mirror) : Option String :=
  if mirror.render_as_image && render_images then
    render_message_as_image env message mirror.include_media mirror.include_replies
  else none

/-- MirrorHandler.mirror_message_to_target (src/services/mirror/
handlers.py lines 139-166): render if configured, then mark_as_mirrored
with the render result (which may be None). Except models the raise
channel the caller guards against. -/
def mirror_message_to_target (env : RenderEnv) (render_images : Bool)
    (message : Message) (mirror : Mirror) (db : Db) : Except String Db :=
  let rendered_image_path := render_result env render_images message mirror
  Except.ok (MessageRepo.mark_as_mirrored db message.id rendered_image_path).2

/-- MirrorHandler.handle_message_mirroring (src/services/mirror/
handlers.py lines 126-137): loop over the mirrors, the per-mirror call
wrapped in try/except, an exception leaving that iteration's state
unchanged and the loop continuing. -/
def handle_message_mirroring (deliver : Mirror → Db → Except String Db)
    (mirrors : List Mirror) (db : Db) : Db :=
  mirrors.foldl (fun acc mirror =>
    match deliver mirror acc with
    | Except.ok db2 => db2
    | Except.error _ => acc) db

/-- One dispatch pass of MirrorService.process_incoming_message over an
already persisted message: handle_message_mirroring instantiated with
mirror_message_to_target. -/
def dispatch_pass (env : RenderEnv) (render_images : Bool) (message : Message)
    (mirrors : List Mirror) (db : Db) : Db :=
  handle_message_mirroring (mirror_message_to_target env render_images message)
    mirrors db

/-- MirrorService.create_mirror_configuration (src/services/mirror/
service.py lines 72-126): both chats must already exist, else None and no
row; otherwise create the mirror row with the given fields. -/
def create_mirror_configuration (db : Db) (source_chat_id target_chat_id : Int)
    (target_topic_id : Option Int)
    (render_as_image include_media include_replies : Bool) :
    Option Mirror × Db :=
  match ChatRepo.get_by_id db source_chat_id with
  | none => (none, db)
  | some _ =>
    match ChatRepo.get_by_id db target_chat_id with
    | none => (none, db)
    | some _ =>
      let created := MirrorRepo.create db source_chat_id target_chat_id
        target_topic_id render_as_image include_media include_replies
      (some created.1, created.2)

/-- Per-mirror delivery outcome observable from the telegram send
layer's log branches: photo sent, message copied, or the except branch
taken. -/
inductive SendOutcome where
  | sentImage
  | sentCopy
  | failed
deriving Repr, DecidableEq

/-- The chat-protocol send primitives used by
TelegramMessageHandler.send_mirrored_message; both may raise. send_photo
takes the target chat, the image path and the topic id; copy_message the
target chat, the source chat, the protocol message id and the topic id. -/
structure SendEnv where
  send_photo : Int → String → Option Int → Except String Unit
  copy_message : Int → Int → Int → Option Int → Except String Unit

/-- TelegramMessageHandler.send_mirrored_message (src/services/telegram/
handlers.py lines 144-182): the whole body runs under try/except, so no
exception escapes; the image branch is taken only when the stored message
has a rendered image path and the mirror asks for images, otherwise the
original message is copied verbatim. -/
def send_mirrored_message (env : SendEnv) (db_message : Message)
    (mirror : Mirror) : SendOutcome :=
  let attempt : Except String SendOutcome :=
    match db_message.rendered_image_path, mirror.render_as_image with
    | some path, true => do
      let _ ← env.send_photo mirror.target_chat_id path mirror.target_topic_id
      pure SendOutcome.sentImage
    | _, _ => do
      let _ ← env.copy_message mirror.target_chat_id db_message.chat_id
        db_message.telegram_id mirror.target_topic_id
      pure SendOutcome.sentCopy
  match attempt with
  | Except.ok outcome => outcome
  | Except.error _ => SendOutcome.failed

/-- The send loop of TelegramMessageHandler.handle_source_message: one
send_mirrored_message per mirror, collecting the per-mirror outcomes. -/
def send_phase (env : SendEnv) (db_message : Message) (mirrors : List Mirror) :
    List SendOutcome :=
  mirrors.map (send_mirrored_message env db_message)

/-- The end-to-end pass of TelegramMessageHandler.handle_source_message
over an already persisted message: the dispatch pass of
process_incoming_message, then, when the stored message ended up
mirrored, the send loop over the same mirrors using the stored row. -/
def full_pass (rEnv : RenderEnv) (render_images : Bool) (sEnv : SendEnv)
    (message : Message) (mirrors : List Mirror) (db : Db) :
    Db × List SendOutcome :=
  match MessageRepo.get_by_id (dispatch_pass rEnv render_images message mirrors db)
      message.id with
  | some db_message =>
    if db_message.is_mirrored then
      (dispatch_pass rEnv render_images message mirrors db,
       send_phase sEnv db_message mirrors)
    else (dispatch_pass rEnv render_images message mirrors db, [])
  | none => (dispatch_pass rEnv render_images message mirrors db, [])

theorem find?_map_of_pres {α : Type} (p : α → Bool) (f : α → α)
    (hf : ∀ a, p (f a) = p a) :
    ∀ l : List α, (l.map f).find? p = (l.find? p).map f := by
  intro l
  induction l with
  | nil => rfl
  | cons a l ih =>
    simp only [List.map_cons, List.find?_cons]
    rw [hf a]
    cases hpa : p a
    · exact ih
    · rfl

theorem find?_pred {α : Type} (p : α → Bool) :
    ∀ (l : List α) (a : α), l.find? p = some a → p a = true := by
  intro l
  induction l with
  | nil => intro a h; exact absurd h (by simp)
  | cons x xs ih =>
    intro a h
    simp only [List.find?_cons] at h
    cases hx : p x
    · rw [hx] at h
      exact ih a h
    · rw [hx] at h
      have hxa : x = a := Option.some.inj h
      subst hxa
      exact hx

theorem find?_append_of_none {α : Type} (p : α → Bool) (l1 l2 : List α)
    (h : l1.find? p = none) : (l1 ++ l2).find? p = l2.find? p := by
  induction l1 with
  | nil => rfl
  | cons a l ih =>
    simp only [List.cons_append, List.find?_cons]
    simp only [List.find?_cons] at h
    cases hpa : p a
    · rw [hpa] at h
      exact ih h
    · rw [hpa] at h
      exact absurd h (by simp)

theorem get_by_id_mark (db : Db) (mid : Nat) (path : Option String)
    (m : Message) (h : MessageRepo.get_by_id db mid = some m) :
    MessageRepo.get_by_id (MessageRepo.mark_as_mirrored db mid path).2 mid =
      some { m with is_mirrored := true, mirror_count := m.mirror_count + 1,
                    rendered_image_path := path } := by
  unfold MessageRepo.get_by_id MessageRepo.mark_as_mirrored
  unfold MessageRepo.get_by_id at h
  have hpres : ∀ x : Message,
      ((if x.id == mid then
          { x with is_mirrored := true, mirror_count := x.mirror_count + 1,
                   rendered_image_path := path }
        else x).id == mid) = (x.id == mid) := by
    intro x
    by_cases hx : (x.id == mid) = true
    · rw [hx]; simp [hx]
    · simp only [Bool.not_eq_true] at hx
      rw [hx]; simp [hx]
  rw [find?_map_of_pres _ _ hpres, h]
  have hm : (m.id == mid) = true :=
    find?_pred (fun x : Message => x.id == mid) db.messages m h
  simp only [Option.map_some']
  rw [if_pos hm]

theorem get_by_id_update_info (db : Db) (cid : Int)
    (t un d : Option String) (c : Chat)
    (h : ChatRepo.get_by_id db cid = some c) :
    ChatRepo.get_by_id (ChatRepo.update_info db cid t un d).2 cid =
      some { c with title := if t.isSome then t else c.title,
                    username := if un.isSome then un else c.username,
                    description := if d.isSome then d else c.description } := by
  unfold ChatRepo.update_info
  by_cases hempty : (t.isNone && un.isNone && d.isNone) = true
  · rw [if_pos hempty]
    simp only [Bool.and_eq_true, Option.isNone_iff_eq_none] at hempty
    obtain ⟨⟨ht, hu⟩, hd⟩ := hempty
    subst ht; subst hu; subst hd
    simpa using h
  · rw [if_neg hempty]
    unfold ChatRepo.get_by_id at h ⊢
    have hpres : ∀ x : Chat,
        ((if x.id == cid then
            { x with title := if t.isSome then t else x.title,
                     username := if un.isSome then un else x.username,
                     description := if d.isSome then d else x.description }
          else x).id == cid) = (x.id == cid) := by
      intro x
      by_cases hx : (x.id == cid) = true
      · rw [hx]; simp [hx]
      · simp only [Bool.not_eq_true] at hx
        rw [hx]; simp [hx]
    rw [find?_map_of_pres _ _ hpres, h]
    have hc : (c.id == cid) = true :=
      find?_pred (fun x : Chat => x.id == cid) db.chats c h
    simp only [Option.map_some']
    rw [if_pos hc]

/-- The stored row produced for a message by one dispatch pass: untouched
when there are no mirrors, otherwise mirror_count grows by the number of
mirrors, is_mirrored becomes true, and rendered_image_path is the render
result of the last mirror in the list. -/
def dispatch_result (env : RenderEnv) (render_images : Bool) (msg : Message)
    (mirrors : List Mirror) (m : Message) : Message :=
  match mirrors.getLast? with
  | none => m
  | some last =>
    { m with is_mirrored := true,
             mirror_count := m.mirror_count + mirrors.length,
             rendered_image_path := render_result env render_images msg last }

theorem dispatch_result_cons (env : RenderEnv) (ri : Bool) (msg : Message)
    (mir : Mirror) (rest : List Mirror) (m : Message) :
    dispatch_result env ri msg rest
      { m with is_mirrored := true, mirror_count := m.mirror_count + 1,
               rendered_image_path := render_result env ri msg mir } =
    dispatch_result env ri msg (mir :: rest) m := by
  cases rest with
  | nil => rfl
  | cons r rs =>
    unfold dispatch_result
    rw [show (mir :: r :: rs).getLast? = (r :: rs).getLast? from
      List.getLast?_cons_cons]
    cases hg : (r :: rs).getLast? with
    | none => exact absurd hg (by simp)
    | some last =>
      have harith : m.mirror_count + 1 + (r :: rs).length =
          m.mirror_count + (mir :: r :: rs).length := by
        simp only [List.length_cons]
        omega
      simp only []
      rw [harith]

theorem dispatch_pass_get (env : RenderEnv) (ri : Bool) (msg : Message) :
    ∀ (mirrors : List Mirror) (db : Db) (m : Message),
    MessageRepo.get_by_id db msg.id = some m →
    MessageRepo.get_by_id (dispatch_pass env ri msg mirrors db) msg.id =
      some (dispatch_result env ri msg mirrors m) := by
  intro mirrors
  induction mirrors with
  | nil =>
    intro db m h
    exact h
  | cons mir rest ih =>
    intro db m h
    have hstep : dispatch_pass env ri msg (mir :: rest) db =
        dispatch_pass env ri msg rest
          (MessageRepo.mark_as_mirrored db msg.id (render_result env ri msg mir)).2 := by
      rfl
    rw [hstep]
    have h1 := get_by_id_mark db msg.id (render_result env ri msg mir) m h
    have h2 := ih _ _ h1
    rw [h2, dispatch_result_cons]

theorem dispatch_result_of_getLast (env : RenderEnv) (ri : Bool)
    (msg : Message) (mirrors : List Mirror) (m : Message) (last : Mirror)
    (hg : mirrors.getLast? = some last) :
    dispatch_result env ri msg mirrors m =
      { m with
        is_mirrored := true,
        mirror_count := m.mirror_count + mirrors.length,
        rendered_image_path := render_result env ri msg last } := by
  unfold dispatch_result
  rw [hg]

theorem full_pass_eq (rEnv : RenderEnv) (ri : Bool) (sEnv : SendEnv)
    (msg : Message) (mirrors : List Mirror) (db : Db) (m2 : Message)
    (h : MessageRepo.get_by_id (dispatch_pass rEnv ri msg mirrors db) msg.id =
      some m2)
    (hmir : m2.is_mirrored = true) :
    full_pass rEnv ri sEnv msg mirrors db =
      (dispatch_pass rEnv ri msg mirrors db, send_phase sEnv m2 mirrors) := by
  unfold full_pass
  rw [h]
  simp only [hmir, if_true]

/-- Concrete fixture: an ordinary persisted text message with
mirror_count 0. -/
def msgW : Message :=
  { id := 1, telegram_id := 555, chat_id := -100111, user_id := some 20,
    text := some "hello", media_type := none, media_file_id := none,
    media_file_unique_id := none, reply_to_message_id := none,
    message_thread_id := none, is_forwarded := false,
    forward_from_chat_id := none, forward_from_user_id := none,
    is_mirrored := false, mirror_count := 0, rendered_image_path := none }

/-- Concrete fixture: a copy-mode mirror from chat -100111 to -100222. -/
def mirCopyA : Mirror :=
  { id := 1, source_chat_id := -100111, target_chat_id := -100222,
    target_topic_id := none, is_active := true, render_as_image := false,
    include_media := true, include_replies := true }

/-- Concrete fixture: a second copy-mode mirror, to chat -100333. -/
def mirCopyB : Mirror :=
  { mirCopyA with id := 2, target_chat_id := -100333 }

/-- Concrete fixture: a render-mode mirror to chat -100222. -/
def mirRender : Mirror :=
  { mirCopyA with id := 3, render_as_image := true }

/-- Concrete fixture: a database holding just the message msgW. -/
def dbW : Db :=
  { users := [], chats := [], messages := [msgW],
    mirrors := [mirCopyA, mirCopyB], next_mirror_id := 4 }

/-- Concrete fixture: rendering collaborators that always fail. -/
def rEnvErr : RenderEnv :=
  { generate_message_html := fun _ _ _ => Except.error "renderer unavailable",
    complete_styles := "",
    screenshot := fun _ _ _ => Except.error "no browser",
    output_exists := fun _ => false }

/-- Concrete fixture: rendering collaborators that always succeed. -/
def rEnvOk : RenderEnv :=
  { generate_message_html := fun _ _ _ => Except.ok "html",
    complete_styles := "css",
    screenshot := fun _ _ _ => Except.ok (),
    output_exists := fun _ => true }

/-- C1 counterexample: with the two active mirrors mirCopyA and mirCopyB,
one dispatch pass over the persisted message msgW (stored mirror_count 0)
leaves mirror_count at 2, not 1: handle_message_mirroring calls
mark_as_mirrored once per mirror, so the increment is per target, not per
pass. -/
theorem mirror_count_pass_counterexample :
    (MessageRepo.get_by_id dbW 1).map Message.mirror_count = some 0 ∧
    (MessageRepo.get_by_id
        (dispatch_pass rEnvErr true msgW [mirCopyA, mirCopyB] dbW) 1).map
      Message.mirror_count = some 2 ∧
    (MessageRepo.get_by_id
        (dispatch_pass rEnvErr true msgW [mirCopyA, mirCopyB] dbW) 1).map
      Message.mirror_count ≠ some 1 := by
  refine ⟨rfl, rfl, ?_⟩
  decide

/-- C1 amended: one dispatch pass over a persisted message and a non-empty
mirror list, with no per-mirror exception, increases the message's
mirror_count by exactly the number of mirrors (once per mirror, not once
per pass), and afterwards is_mirrored is true. -/
theorem mirror_count_incremented_per_mirror (env : RenderEnv) (ri : Bool)
    (msg : Message) (mirrors : List Mirror) (db : Db) (m : Message)
    (hm : MessageRepo.get_by_id db msg.id = some m)
    (hne : mirrors ≠ []) :
    ∃ m2 : Message,
      MessageRepo.get_by_id (dispatch_pass env ri msg mirrors db) msg.id =
        some m2 ∧
      m2.mirror_count = m.mirror_count + mirrors.length ∧
      m2.is_mirrored = true := by
  cases mirrors with
  | nil => exact absurd rfl hne
  | cons mir rest =>
    have h := dispatch_pass_get env ri msg (mir :: rest) db m hm
    unfold dispatch_result at h
    cases hg : (mir :: rest).getLast? with
    | none => exact absurd hg (by simp)
    | some last =>
      rw [hg] at h
      exact ⟨_, h, rfl, rfl⟩

/-- Witness for the C1 theorem at a concrete input: two mirrors, stored
count 0, final count 2 and is_mirrored true. -/
theorem mirror_count_incremented_per_mirror_witness :
    ∃ m2 : Message,
      MessageRepo.get_by_id
        (dispatch_pass rEnvErr true msgW [mirCopyA, mirCopyB] dbW) msgW.id =
        some m2 ∧
      m2.mirror_count = msgW.mirror_count + ([mirCopyA, mirCopyB] : List Mirror).length ∧
      m2.is_mirrored = true :=
  mirror_count_incremented_per_mirror rEnvErr true msgW [mirCopyA, mirCopyB]
    dbW msgW rfl (by simp)

/-- C4 counterexample: with mirrors [mirRender, mirCopyA] and a renderer
that succeeds, the pass's only successful render (for mirRender) produces
a path, yet the stored rendered_image_path afterwards is None: the second
mirror's mark_as_mirrored overwrote it with its own None render result,
so the stored path is not the most recent successful render's path. -/
theorem rendered_path_counterexample :
    (render_result rEnvOk true msgW mirRender).isSome = true ∧
    (MessageRepo.get_by_id
        (dispatch_pass rEnvOk true msgW [mirRender, mirCopyA] dbW) 1).map
      Message.rendered_image_path = some none := by
  exact ⟨rfl, rfl⟩

/-- C4 amended: after a dispatch pass with no per-mirror exception, the
stored rendered_image_path equals the render result of the LAST mirror of
the pass (None when that mirror rendered nothing), every mirror's
mark_as_mirrored writing the field unconditionally: last writer wins, and
the last writer may write None even when an earlier mirror rendered
successfully. -/
theorem rendered_path_last_mirror_writes (env : RenderEnv) (ri : Bool)
    (msg : Message) (mirrors : List Mirror) (db : Db) (m : Message)
    (last : Mirror)
    (hm : MessageRepo.get_by_id db msg.id = some m)
    (hlast : mirrors.getLast? = some last) :
    ∃ m2 : Message,
      MessageRepo.get_by_id (dispatch_pass env ri msg mirrors db) msg.id =
        some m2 ∧
      m2.rendered_image_path = render_result env ri msg last ∧
      m2.is_mirrored = true := by
  have h := dispatch_pass_get env ri msg mirrors db m hm
  unfold dispatch_result at h
  rw [hlast] at h
  exact ⟨_, h, rfl, rfl⟩

/-- Witness for the C4 theorem at a concrete input: the last mirror is the
copy-mode mirCopyA, whose render result is None, and the stored path ends
as None. -/
theorem rendered_path_last_mirror_writes_witness :
    ∃ m2 : Message,
      MessageRepo.get_by_id
        (dispatch_pass rEnvOk true msgW [mirRender, mirCopyA] dbW) msgW.id =
        some m2 ∧
      m2.rendered_image_path = render_result rEnvOk true msgW mirCopyA ∧
      m2.is_mirrored = true :=
  rendered_path_last_mirror_writes rEnvOk true msgW [mirRender, mirCopyA]
    dbW msgW mirCopyA rfl rfl

/-- Concrete fixture: send primitives that always succeed. -/
def sEnvOk : SendEnv :=
  { send_photo := fun _ _ _ => Except.ok (),
    copy_message := fun _ _ _ _ => Except.ok () }

/-- Concrete fixture: send primitives that raise for target chat -100333
and succeed elsewhere. -/
def sEnvFailB : SendEnv :=
  { send_photo := fun chat_id _ _ =>
      if chat_id == -100333 then Except.error "FLOOD_WAIT" else Except.ok (),
    copy_message := fun chat_id _ _ _ =>
      if chat_id == -100333 then Except.error "FLOOD_WAIT" else Except.ok () }

/-- C2: for a persisted message and a mirror list containing a mirror
mirk (at position k) whose delivery always raises, the exception stays
inside the per-mirror boundary: the pass is total, every mirror is
attempted (the outcome list is the map of the per-mirror send over the
whole mirror list), position k's outcome is failed, the message row is
still present (the send loop touches no database state), and the message
still ends the pass marked mirrored. -/
theorem per_mirror_failure_isolation (rEnv : RenderEnv) (ri : Bool)
    (sEnv : SendEnv) (msg : Message) (mirrors : List Mirror) (db : Db)
    (m : Message) (k : Nat) (mirk : Mirror)
    (hm : MessageRepo.get_by_id db msg.id = some m)
    (hk : mirrors[k]? = some mirk)
    (hfail : ∀ dbm : Message,
      send_mirrored_message sEnv dbm mirk = SendOutcome.failed) :
    ∃ m2 : Message,
      (full_pass rEnv ri sEnv msg mirrors db).1 =
        dispatch_pass rEnv ri msg mirrors db ∧
      MessageRepo.get_by_id (full_pass rEnv ri sEnv msg mirrors db).1 msg.id =
        some m2 ∧
      m2.is_mirrored = true ∧
      (full_pass rEnv ri sEnv msg mirrors db).2 =
        mirrors.map (send_mirrored_message sEnv m2) ∧
      (full_pass rEnv ri sEnv msg mirrors db).2.length = mirrors.length ∧
      (full_pass rEnv ri sEnv msg mirrors db).2[k]? =
        some SendOutcome.failed := by
  cases mirrors with
  | nil =>
    rw [show (([] : List Mirror))[k]? = none by simp] at hk
    exact absurd hk (by simp)
  | cons mir rest =>
    have h := dispatch_pass_get rEnv ri msg (mir :: rest) db m hm
    cases hg : (mir :: rest).getLast? with
    | none => exact absurd hg (by simp)
    | some last =>
      rw [dispatch_result_of_getLast rEnv ri msg (mir :: rest) m last hg] at h
      have hfp := full_pass_eq rEnv ri sEnv msg (mir :: rest) db _ h rfl
      refine ⟨{ m with
          is_mirrored := true,
          mirror_count := m.mirror_count + (mir :: rest).length,
          rendered_image_path := render_result rEnv ri msg last },
        ?_, ?_, rfl, ?_, ?_, ?_⟩
      · rw [hfp]
      · rw [hfp]
        exact h
      · rw [hfp]
        exact rfl
      · rw [hfp]
        simp [send_phase]
      · rw [hfp]
        show (send_phase sEnv _ (mir :: rest))[k]? = some SendOutcome.failed
        unfold send_phase
        rw [List.getElem?_map, hk]
        simp [hfail]

/-- Witness for the C2 theorem at a concrete input: two mirrors, the
second one's target raising on every send; both are attempted, the
second outcome is failed, and the message is still marked mirrored. -/
theorem per_mirror_failure_isolation_witness :
    ∃ m2 : Message,
      (full_pass rEnvErr true sEnvFailB msgW [mirCopyA, mirCopyB] dbW).1 =
        dispatch_pass rEnvErr true msgW [mirCopyA, mirCopyB] dbW ∧
      MessageRepo.get_by_id
        (full_pass rEnvErr true sEnvFailB msgW [mirCopyA, mirCopyB] dbW).1
        msgW.id = some m2 ∧
      m2.is_mirrored = true ∧
      (full_pass rEnvErr true sEnvFailB msgW [mirCopyA, mirCopyB] dbW).2 =
        ([mirCopyA, mirCopyB] : List Mirror).map
          (send_mirrored_message sEnvFailB m2) ∧
      (full_pass rEnvErr true sEnvFailB msgW [mirCopyA, mirCopyB] dbW).2.length =
        ([mirCopyA, mirCopyB] : List Mirror).length ∧
      (full_pass rEnvErr true sEnvFailB msgW [mirCopyA, mirCopyB] dbW).2[1]? =
        some SendOutcome.failed :=
  per_mirror_failure_isolation rEnvErr true sEnvFailB msgW [mirCopyA, mirCopyB]
    dbW msgW 1 mirCopyB rfl rfl
    (by
      intro dbm
      simp only [send_mirrored_message, sEnvFailB, mirCopyB, mirCopyA]
      cases hdb : dbm.rendered_image_path <;> simp [hdb])

/-- C3: for a mirror with render_as_image true and the system-wide render
switch on, when rendering fails (returns None) the message is still
delivered to the mirror's target through the copy-message primitive, and
the mirror's outcome is the copy success, not a failure. -/
theorem render_failure_degrades_to_copy (rEnv : RenderEnv) (sEnv : SendEnv)
    (msg : Message) (mir : Mirror) (db : Db) (m : Message)
    (hm : MessageRepo.get_by_id db msg.id = some m)
    (hrai : mir.render_as_image = true)
    (hrender : render_message_as_image rEnv msg mir.include_media
      mir.include_replies = none)
    (hcopy : sEnv.copy_message mir.target_chat_id m.chat_id m.telegram_id
      mir.target_topic_id = Except.ok ()) :
    ∃ m2 : Message,
      MessageRepo.get_by_id (full_pass rEnv true sEnv msg [mir] db).1 msg.id =
        some m2 ∧
      m2.rendered_image_path = none ∧
      m2.is_mirrored = true ∧
      (full_pass rEnv true sEnv msg [mir] db).2 = [SendOutcome.sentCopy] := by
  have hrr : render_result rEnv true msg mir = none := by
    unfold render_result
    rw [hrai]
    simpa using hrender
  have h : MessageRepo.get_by_id (dispatch_pass rEnv true msg [mir] db) msg.id =
      some { m with is_mirrored := true, mirror_count := m.mirror_count + 1,
                    rendered_image_path := none } := by
    rw [← hrr]
    exact dispatch_pass_get rEnv true msg [mir] db m hm
  have hfp := full_pass_eq rEnv true sEnv msg [mir] db _ h rfl
  refine ⟨{ m with
      is_mirrored := true,
      mirror_count := m.mirror_count + 1,
      rendered_image_path := none }, ?_, rfl, rfl, ?_⟩
  · rw [hfp]
    exact h
  · rw [hfp]
    show send_phase sEnv _ [mir] = [SendOutcome.sentCopy]
    unfold send_phase send_mirrored_message
    simp [hcopy]

/-- Witness for the C3 theorem at a concrete input: a render-mode mirror,
a renderer whose collaborators raise, and a copy primitive that succeeds;
the outcome is the copy success. -/
theorem render_failure_degrades_to_copy_witness :
    ∃ m2 : Message,
      MessageRepo.get_by_id
        (full_pass rEnvErr true sEnvOk msgW [mirRender] dbW).1 msgW.id =
        some m2 ∧
      m2.rendered_image_path = none ∧
      m2.is_mirrored = true ∧
      (full_pass rEnvErr true sEnvOk msgW [mirRender] dbW).2 =
        [SendOutcome.sentCopy] :=
  render_failure_degrades_to_copy rEnvErr sEnvOk msgW mirRender dbW msgW
    rfl rfl rfl rfl

/-- Concrete fixture: a media payload. -/
def mediaObjW : MediaObj := { file_id := "anim-file", file_unique_id := "anim-uid" }

/-- Concrete fixture: an inbound event carrying only an animation. -/
def evAnim : PyrogramMessage :=
  { photo := none, video := none, document := none, audio := none,
    voice := none, sticker := none, animation := some mediaObjW,
    video_note := none }

/-- C5 counterexample: an event carrying an animation yields no media tag
at all — extract_media_info only inspects photo, video, document, audio,
voice and sticker, so animation (and video_note) events fall through to
the all-None result instead of yielding their tag. -/
theorem media_tag_animation_counterexample :
    (extract_media_info evAnim).media_type = none ∧
    (extract_media_info evAnim).media_type ≠ some "animation" := by
  exact ⟨rfl, by decide⟩

/-- C5 amended: the media tag is drawn from the six-element enumeration
photo, video, document, audio, voice, sticker (or none), and the first
matching type in that order wins; animation and video-note events are not
inspected and yield no tag. -/
theorem media_tag_first_match (e : PyrogramMessage) :
    (extract_media_info e).media_type ∈
      [none, some "photo", some "video", some "document", some "audio",
       some "voice", some "sticker"] ∧
    extract_media_info e =
      (match first_media e with
       | some nv =>
         { media_type := some nv.1, media_file_id := some nv.2.file_id,
           media_file_unique_id := some nv.2.file_unique_id }
       | none =>
         { media_type := none, media_file_id := none,
           media_file_unique_id := none }) := by
  obtain ⟨ph, v, doc, au, vo, st, an, vn⟩ := e
  cases ph <;> cases v <;> cases doc <;> cases au <;> cases vo <;> cases st <;>
    exact ⟨by simp [extract_media_info], rfl⟩

/-- Concrete fixture: a stored chat with an old username and title. -/
def chatOld : Chat :=
  { id := -100111, title := some "Old title", username := some "oldname",
    type := "supergroup", description := none, is_source := true,
    is_target := false, is_active := true }

/-- Concrete fixture: a stored target chat. -/
def chatT : Chat :=
  { id := -100222, title := some "Target", username := none,
    type := "supergroup", description := none, is_source := false,
    is_target := true, is_active := true }

/-- Concrete fixture: a database holding chatOld and chatT. -/
def dbChats : Db :=
  { users := [], chats := [chatOld, chatT], messages := [], mirrors := [],
    next_mirror_id := 1 }

/-- Concrete fixture: incoming chat profile carrying a new title and
description but no username. -/
def cInfoNew : ChatInfo :=
  { chat_id := -100111, title := some "New title", username := none,
    chat_type := "supergroup", description := some "new desc" }

/-- Concrete fixture: the configured id lists. -/
def settingsW : MirrorSettings :=
  { source_chat_ids := [-100111], target_chat_ids := [-100222],
    admin_user_ids := [10], allowed_user_ids := [20], render_images := true }

/-- Concrete fixture: different configured id lists (all empty). -/
def settings2W : MirrorSettings :=
  { source_chat_ids := [], target_chat_ids := [], admin_user_ids := [],
    allowed_user_ids := [], render_images := false }

/-- C6 counterexample: resolving chatOld against an event whose username
field is absent leaves the stored username at its old value instead of
the event's (absent) value — update_info only writes the fields that are
present, so the refresh is per-field conditional, not unconditional. -/
theorem chat_refresh_counterexample :
    cInfoNew.username = none ∧
    (ChatRepo.get_by_id
        (ensure_chat_exists settingsW dbChats cInfoNew).2 (-100111)).map
      Chat.username = some (some "oldname") := by
  exact ⟨rfl, rfl⟩

/-- C6 amended: for an existing chat, resolution refreshes each of title,
username and description to the incoming event's value only when that
value is present; a field absent from the event keeps its stored value.
The refresh does happen on every resolution of an existing chat, but
field-wise conditionally, not unconditionally. -/
theorem chat_profile_refresh (s : MirrorSettings) (db : Db)
    (cinfo : ChatInfo) (c : Chat)
    (h : ChatRepo.get_by_id db cinfo.chat_id = some c) :
    ChatRepo.get_by_id (ensure_chat_exists s db cinfo).2 cinfo.chat_id =
      some { c with
        title := if cinfo.title.isSome then cinfo.title else c.title,
        username := if cinfo.username.isSome then cinfo.username else c.username,
        description := if cinfo.description.isSome then cinfo.description
          else c.description } := by
  unfold ensure_chat_exists
  rw [h]
  exact get_by_id_update_info db cinfo.chat_id cinfo.title cinfo.username
    cinfo.description c h

/-- Witness for the C6 theorem at a concrete input. -/
theorem chat_profile_refresh_witness :
    ChatRepo.get_by_id (ensure_chat_exists settingsW dbChats cInfoNew).2
        cInfoNew.chat_id =
      some { chatOld with
        title := if cInfoNew.title.isSome then cInfoNew.title else chatOld.title,
        username := if cInfoNew.username.isSome then cInfoNew.username
          else chatOld.username,
        description := if cInfoNew.description.isSome then cInfoNew.description
          else chatOld.description } :=
  chat_profile_refresh settingsW dbChats cInfoNew chatOld rfl

/-- C7: create_mirror_configuration returns none and leaves the database
unchanged (no Mirror row persisted) when either chat id has no Chat
record; when both exist it appends exactly one Mirror row carrying the
given source, target, optional topic and the three policy flags, with
is_active true, and returns it. -/
theorem create_mirror_requires_chats (db : Db) (sid tid : Int)
    (topic : Option Int) (r im irp : Bool) :
    ((ChatRepo.get_by_id db sid = none ∨ ChatRepo.get_by_id db tid = none) →
      create_mirror_configuration db sid tid topic r im irp = (none, db)) ∧
    ((ChatRepo.get_by_id db sid).isSome = true →
      (ChatRepo.get_by_id db tid).isSome = true →
      ∃ mir : Mirror,
        create_mirror_configuration db sid tid topic r im irp =
          (some mir, { db with mirrors := db.mirrors ++ [mir],
                               next_mirror_id := db.next_mirror_id + 1 }) ∧
        mir.source_chat_id = sid ∧ mir.target_chat_id = tid ∧
        mir.target_topic_id = topic ∧ mir.render_as_image = r ∧
        mir.include_media = im ∧ mir.include_replies = irp ∧
        mir.is_active = true) := by
  constructor
  · intro hnone
    unfold create_mirror_configuration
    cases hs : ChatRepo.get_by_id db sid with
    | none => rfl
    | some cs =>
      cases ht : ChatRepo.get_by_id db tid with
      | none => rfl
      | some ct =>
        rcases hnone with hx | hx
        · rw [hs] at hx
          exact absurd hx (by simp)
        · rw [ht] at hx
          exact absurd hx (by simp)
  · intro hs ht
    unfold create_mirror_configuration
    cases hs2 : ChatRepo.get_by_id db sid with
    | none =>
      rw [hs2] at hs
      exact absurd hs (by simp)
    | some cs =>
      cases ht2 : ChatRepo.get_by_id db tid with
      | none =>
        rw [ht2] at ht
        exact absurd ht (by simp)
      | some ct =>
        exact ⟨_, rfl, rfl, rfl, rfl, rfl, rfl, rfl, rfl⟩

/-- Witness for the C7 theorem at concrete inputs: a missing source chat
makes the operation return none with the database unchanged, and two
existing chats produce exactly one appended Mirror row with the given
fields. -/
theorem create_mirror_requires_chats_witness :
    (create_mirror_configuration dbChats (-100999) (-100222) none true true
      true = (none, dbChats)) ∧
    (∃ mir : Mirror,
      create_mirror_configuration dbChats (-100111) (-100222) (some 77) true
          false true =
        (some mir, { dbChats with mirrors := dbChats.mirrors ++ [mir],
                                  next_mirror_id := dbChats.next_mirror_id + 1 }) ∧
      mir.source_chat_id = -100111 ∧ mir.target_chat_id = -100222 ∧
      mir.target_topic_id = some 77 ∧ mir.render_as_image = true ∧
      mir.include_media = false ∧ mir.include_replies = true ∧
      mir.is_active = true) :=
  ⟨(create_mirror_requires_chats dbChats (-100999) (-100222) none true true
      true).1 (Or.inl rfl),
   (create_mirror_requires_chats dbChats (-100111) (-100222) (some 77) true
      false true).2 rfl rfl⟩

/-- The user row ensure_user_exists creates for an unknown sender:
classification comes from the configured id lists at creation time. -/
def classified_user (s : MirrorSettings) (uinfo : UserInfo) : User :=
  { id := uinfo.user_id, username := uinfo.username,
    first_name := uinfo.first_name, last_name := uinfo.last_name,
    is_admin := s.admin_user_ids.contains uinfo.user_id,
    is_allowed := s.admin_user_ids.contains uinfo.user_id ||
      s.allowed_user_ids.contains uinfo.user_id,
    is_active := true }

theorem ensure_user_exists_absent (s : MirrorSettings) (db : Db)
    (uinfo : UserInfo)
    (habs : UserRepo.get_by_id db uinfo.user_id = none) :
    ensure_user_exists s db (some uinfo) =
      (some (classified_user s uinfo),
       { db with users := db.users ++ [classified_user s uinfo] }) := by
  simp only [ensure_user_exists]
  rw [habs]
  rfl

theorem ensure_user_exists_present (s : MirrorSettings) (db : Db)
    (uinfo : UserInfo) (u : User)
    (hpres : UserRepo.get_by_id db uinfo.user_id = some u) :
    ensure_user_exists s db (some uinfo) = (some u, db) := by
  simp only [ensure_user_exists]
  rw [hpres]

theorem get_by_id_after_create (db : Db) (uinfo : UserInfo)
    (s : MirrorSettings)
    (habs : UserRepo.get_by_id db uinfo.user_id = none) :
    UserRepo.get_by_id
        { db with users := db.users ++ [classified_user s uinfo] }
        uinfo.user_id =
      some (classified_user s uinfo) := by
  unfold UserRepo.get_by_id at habs ⊢
  rw [find?_append_of_none _ _ _ habs]
  simp [List.find?, classified_user]

/-- The chat row ensure_chat_exists creates for an unknown chat:
classification comes from the configured source/target id lists at
creation time. -/
def classified_chat (s : MirrorSettings) (cinfo : ChatInfo) : Chat :=
  { id := cinfo.chat_id, title := cinfo.title, username := cinfo.username,
    type := cinfo.chat_type, description := cinfo.description,
    is_source := s.source_chat_ids.contains cinfo.chat_id,
    is_target := s.target_chat_ids.contains cinfo.chat_id,
    is_active := true }

theorem ensure_chat_exists_absent (s : MirrorSettings) (db : Db)
    (cinfo : ChatInfo)
    (habs : ChatRepo.get_by_id db cinfo.chat_id = none) :
    ensure_chat_exists s db cinfo =
      (classified_chat s cinfo,
       { db with chats := db.chats ++ [classified_chat s cinfo] }) := by
  unfold ensure_chat_exists
  rw [habs]
  rfl

theorem chat_get_by_id_after_create (db : Db) (cinfo : ChatInfo)
    (s : MirrorSettings)
    (habs : ChatRepo.get_by_id db cinfo.chat_id = none) :
    ChatRepo.get_by_id
        { db with chats := db.chats ++ [classified_chat s cinfo] }
        cinfo.chat_id =
      some (classified_chat s cinfo) := by
  unfold ChatRepo.get_by_id at habs ⊢
  rw [find?_append_of_none _ _ _ habs]
  simp [List.find?, classified_chat]

/-- Concrete fixture: a user already stored, not admin but allowed. -/
def userOld : User :=
  { id := 42, username := some "olduser", first_name := some "Old",
    last_name := none, is_admin := false, is_allowed := true,
    is_active := true }

/-- Concrete fixture: a database where user 42 and chat -100111 exist. -/
def dbPres : Db :=
  { users := [userOld], chats := [chatOld], messages := [], mirrors := [],
    next_mirror_id := 1 }

/-- Concrete fixture: the sender fields of an event from user 42. -/
def uInfoW : UserInfo :=
  { user_id := 42, username := some "fresh", first_name := some "F",
    last_name := none }

/-- C8: classification is decided only at creation and resolution is
idempotent. A user created by resolution carries is_admin and is_allowed
computed from the configured lists at that moment and is found in the
store afterwards; a chat created by resolution carries is_source and
is_target computed from the configured source/target lists at that
moment and is found in the store afterwards; resolving the same user
identifier again, even under different configured lists, returns the
same stored record and performs no mutation at all; resolving an
existing chat under different configured lists leaves its is_source and
is_target flags unchanged. -/
theorem classification_snapshot (s s2 : MirrorSettings) (db dbp : Db)
    (uinfo : UserInfo) (u : User) (cinfo cinfo0 : ChatInfo) (c : Chat)
    (habs : UserRepo.get_by_id db uinfo.user_id = none)
    (hchatabs : ChatRepo.get_by_id db cinfo0.chat_id = none)
    (hpres : UserRepo.get_by_id dbp uinfo.user_id = some u)
    (hchat : ChatRepo.get_by_id dbp cinfo.chat_id = some c) :
    (∃ u2 db2,
      ensure_user_exists s db (some uinfo) = (some u2, db2) ∧
      u2.is_admin = s.admin_user_ids.contains uinfo.user_id ∧
      u2.is_allowed = (u2.is_admin || s.allowed_user_ids.contains uinfo.user_id) ∧
      UserRepo.get_by_id db2 uinfo.user_id = some u2 ∧
      ensure_user_exists s2 db2 (some uinfo) = (some u2, db2)) ∧
    (∃ c0 db3,
      ensure_chat_exists s db cinfo0 = (c0, db3) ∧
      c0.is_source = s.source_chat_ids.contains cinfo0.chat_id ∧
      c0.is_target = s.target_chat_ids.contains cinfo0.chat_id ∧
      ChatRepo.get_by_id db3 cinfo0.chat_id = some c0) ∧
    ensure_user_exists s2 dbp (some uinfo) = (some u, dbp) ∧
    (∃ c2,
      ChatRepo.get_by_id (ensure_chat_exists s2 dbp cinfo).2 cinfo.chat_id =
        some c2 ∧
      c2.is_source = c.is_source ∧ c2.is_target = c.is_target) := by
  refine ⟨?_, ?_, ?_, ?_⟩
  · refine ⟨classified_user s uinfo,
      { db with users := db.users ++ [classified_user s uinfo] },
      ensure_user_exists_absent s db uinfo habs, rfl, rfl,
      get_by_id_after_create db uinfo s habs, ?_⟩
    exact ensure_user_exists_present s2 _ uinfo _
      (get_by_id_after_create db uinfo s habs)
  · exact ⟨classified_chat s cinfo0,
      { db with chats := db.chats ++ [classified_chat s cinfo0] },
      ensure_chat_exists_absent s db cinfo0 hchatabs, rfl, rfl,
      chat_get_by_id_after_create db cinfo0 s hchatabs⟩
  · exact ensure_user_exists_present s2 dbp uinfo u hpres
  · have h2 := get_by_id_update_info dbp cinfo.chat_id cinfo.title
      cinfo.username cinfo.description c hchat
    unfold ensure_chat_exists
    rw [hchat]
    exact ⟨_, h2, rfl, rfl⟩

/-- Concrete fixture: the chat fields of an event from a chat unknown to
the store. -/
def cInfoFresh : ChatInfo :=
  { chat_id := -100555, title := some "Fresh", username := none,
    chat_type := "channel", description := none }

/-- Witness for the C8 theorem at concrete inputs: user 42 and chat
-100555 are created and classified under settingsW, the user is
re-resolved unchanged under the empty settings2W, and chat -100111 keeps
is_source true under settings2W. -/
theorem classification_snapshot_witness :
    (∃ u2 db2,
      ensure_user_exists settingsW dbChats (some uInfoW) = (some u2, db2) ∧
      u2.is_admin = settingsW.admin_user_ids.contains uInfoW.user_id ∧
      u2.is_allowed = (u2.is_admin ||
        settingsW.allowed_user_ids.contains uInfoW.user_id) ∧
      UserRepo.get_by_id db2 uInfoW.user_id = some u2 ∧
      ensure_user_exists settings2W db2 (some uInfoW) = (some u2, db2)) ∧
    (∃ c0 db3,
      ensure_chat_exists settingsW dbChats cInfoFresh = (c0, db3) ∧
      c0.is_source = settingsW.source_chat_ids.contains cInfoFresh.chat_id ∧
      c0.is_target = settingsW.target_chat_ids.contains cInfoFresh.chat_id ∧
      ChatRepo.get_by_id db3 cInfoFresh.chat_id = some c0) ∧
    ensure_user_exists settings2W dbPres (some uInfoW) = (some userOld, dbPres) ∧
    (∃ c2,
      ChatRepo.get_by_id (ensure_chat_exists settings2W dbPres cInfoNew).2
        cInfoNew.chat_id = some c2 ∧
      c2.is_source = chatOld.is_source ∧ c2.is_target = chatOld.is_target) :=
  classification_snapshot settingsW settings2W dbChats dbPres uInfoW userOld
    cInfoNew cInfoFresh chatOld rfl rfl rfl rfl

/-- Concrete fixture: a stored user with neither flag set. -/
def userNoPerm : User :=
  { id := 7, username := none, first_name := none, last_name := none,
    is_admin := false, is_allowed := false, is_active := true }

/-- Concrete fixture: a database holding only userNoPerm. -/
def dbU : Db :=
  { users := [userNoPerm], chats := [], messages := [], mirrors := [],
    next_mirror_id := 1 }

/-- C9 counterexample: update_permissions with is_admin := some true and
is_allowed left None turns the stored user 7 into an admin who is not
allowed, so the admin-implies-allowed invariant does not hold after every
permission update. -/
theorem admin_without_allowed_counterexample :
    (UserRepo.get_by_id (UserRepo.update_permissions dbU 7 (some true) none).2
        7).map (fun u => (u.is_admin, u.is_allowed)) = some (true, false) := by
  rfl

/-- C9 amended: every user created by resolution satisfies admin-implies-
allowed (creation computes is_allowed as is_admin OR the allowed list),
and the invariant is preserved across update_permissions only when the
supplied arguments themselves respect it (granting admin also grants
allowed, and revoking allowed also revokes admin); update_permissions
itself does not enforce the implication. -/
theorem admin_implies_allowed_invariant (s : MirrorSettings) (db : Db)
    (uinfo : Option UserInfo) (uid : Int) (a al : Option Bool)
    (hinv : ∀ u ∈ db.users, u.is_admin = true → u.is_allowed = true)
    (h1 : a = some true → al = some true)
    (h2 : al = some false → a = some false) :
    (∀ u ∈ (ensure_user_exists s db uinfo).2.users,
      u.is_admin = true → u.is_allowed = true) ∧
    (∀ u ∈ (UserRepo.update_permissions db uid a al).2.users,
      u.is_admin = true → u.is_allowed = true) := by
  constructor
  · cases uinfo with
    | none => exact hinv
    | some info =>
      cases hg : UserRepo.get_by_id db info.user_id with
      | some u0 =>
        rw [ensure_user_exists_present s db info u0 hg]
        exact hinv
      | none =>
        rw [ensure_user_exists_absent s db info hg]
        intro u hu hadm
        rcases List.mem_append.mp hu with hin | hin
        · exact hinv u hin hadm
        · have hcu : u = classified_user s info := List.mem_singleton.mp hin
          subst hcu
          have hadm2 : s.admin_user_ids.contains info.user_id = true := hadm
          show (s.admin_user_ids.contains info.user_id ||
            s.allowed_user_ids.contains info.user_id) = true
          rw [hadm2]
          rfl
  · unfold UserRepo.update_permissions
    by_cases hemp : (a.isNone && al.isNone) = true
    · rw [if_pos hemp]
      exact hinv
    · rw [if_neg hemp]
      intro u hu hadm
      simp only [List.mem_map] at hu
      obtain ⟨u0, hu0, hmap⟩ := hu
      by_cases hid : (u0.id == uid) = true
      · rw [if_pos hid] at hmap
        subst hmap
        cases a with
        | none =>
          cases al with
          | none => exact hinv u0 hu0 hadm
          | some b =>
            cases b
            · exact absurd (h2 rfl) (by simp)
            · rfl
        | some b =>
          cases b
          · exact absurd hadm (by simp)
          · have hal := h1 rfl
            subst hal
            rfl
      · rw [if_neg hid] at hmap
        subst hmap
        exact hinv u0 hu0 hadm

/-- Witness for the C9 theorem at concrete inputs: resolution creates
user 42 under settingsW, and an update granting both flags to user 7
preserves the invariant over dbU. -/
theorem admin_implies_allowed_invariant_witness :
    (∀ u ∈ (ensure_user_exists settingsW dbU (some uInfoW)).2.users,
      u.is_admin = true → u.is_allowed = true) ∧
    (∀ u ∈ (UserRepo.update_permissions dbU 7 (some true) (some true)).2.users,
      u.is_admin = true → u.is_allowed = true) :=
  admin_implies_allowed_invariant settingsW dbU (some uInfoW) 7 (some true)
    (some true) (by decide) (fun _ => rfl) (fun h => h)

theorem render_none_of_html_error (env : RenderEnv) (message : Message)
    (im irp : Bool) (e : String)
    (hg : env.generate_message_html message im irp = Except.error e) :
    render_message_as_image env message im irp = none := by
  unfold render_message_as_image
  rw [hg]

theorem render_of_html_ok (env : RenderEnv) (message : Message)
    (im irp : Bool) (html : String)
    (hg : env.generate_message_html message im irp = Except.ok html) :
    render_message_as_image env message im irp =
      (match env.screenshot html (render_filename message)
          env.complete_styles with
       | Except.error _ => none
       | Except.ok _ =>
         if env.output_exists ("rendered_messages/" ++ render_filename message) then
           some ("rendered_messages/" ++ render_filename message)
         else none) := by
  unfold render_message_as_image
  rw [hg]

/-- C10: render_message_as_image is total at its boundary: for every
message and flag combination it returns either None or a path for which
the renderer's own existence check succeeded, and every collaborator
failure (HTML generation, screenshot, missing output file) results in
None rather than an exception. -/
theorem render_message_as_image_total (env : RenderEnv) (message : Message)
    (include_media include_replies : Bool) :
    render_message_as_image env message include_media include_replies = none ∨
    ∃ p : String,
      render_message_as_image env message include_media include_replies =
        some p ∧
      env.output_exists p = true := by
  cases hg : env.generate_message_html message include_media include_replies with
  | error e =>
    left
    exact render_none_of_html_error env message include_media include_replies
      e hg
  | ok html =>
    rw [render_of_html_ok env message include_media include_replies html hg]
    cases hs : env.screenshot html (render_filename message)
        env.complete_styles with
    | error e =>
      left
      rfl
    | ok r =>
      by_cases hex : env.output_exists
          ("rendered_messages/" ++ render_filename message) = true
      · right
        refine ⟨_, ?_, hex⟩
        rw [if_pos hex]
      · left
        rw [if_neg hex]

end TelegramMirror
